import Mathlib

/-!
Shallow embedding of the provider-integration code of the
`youtube-automation` repository (render MCP storyboard client,
ElevenLabs voice tool, Runway video tool), together with theorems
settling the specification claims about error classification, status
polling, timeout budgets and request validation.

HTTP traffic is modelled by scripted transport traces: a submission
response value and a list (or stream) of status-poll response values,
one consumed per issued request.  Durations are natural numbers in the
time unit of the source (seconds).
-/

/-- Python truthiness for an optional string: Python treats both `None`
and the empty string as falsy, so `x or y` keeps `x` only when it is a
non-empty string. -/
def truthyStr : Option String → Option String
  | some s => if s = "" then none else some s
  | none => none

/-- Embedding of the Python expression `a or b` on optional strings. -/
def pyOrStr (a b : Option String) : Option String :=
  match truthyStr a with
  | some s => some s
  | none => b

/-- ASCII lower-casing of one character, as Python's `str.lower` acts on
the ASCII status vocabulary used by the code. -/
def lowerChar (c : Char) : Char :=
  if 65 ≤ c.toNat ∧ c.toNat ≤ 90 then Char.ofNat (c.toNat + 32) else c

/-- ASCII lower-casing of a string (model of Python's `str.lower` on the
ASCII strings the status vocabulary uses). -/
def pyLower (s : String) : String :=
  ⟨s.data.map lowerChar⟩

namespace ElevenLabs

/-- Relevant parts of the JSON body of an ElevenLabs HTTP response:
`detail` is the value extracted by `.get("detail", ...)`. -/
structure Body where
  detail : Option String := none
deriving Repr, DecidableEq

/-- Model of an HTTP response received by `ElevenLabsVoiceTool._run`:
status code, optional `retry-after` header, and the parsed JSON body
(`none` models `response.json()` raising). -/
structure Response where
  statusCode : Nat
  retryAfter : Option String := none
  json : Option Body := none
deriving Repr, DecidableEq

/-- Model of the JSON object serialized and returned by
`ElevenLabsVoiceTool._run` (fields irrelevant to the claims omitted). -/
structure Output where
  success : Bool
  error : Option String := none
  errorType : Option String := none
  retryAfterOut : Option String := none
  statusCodeOut : Option Nat := none
deriving Repr, DecidableEq

/-- Embedding of the response-classification chain of
`ElevenLabsVoiceTool._run` (source order: 429, 401, 402, 404, 422, 200,
generic fallback).  The success branch's audio bookkeeping fields are
omitted; the quoting of the voice id inside the 404 message is dropped. -/
def classifyResponse (voiceId : String) (r : Response) : Output :=
  if r.statusCode = 429 then
    let retryAfter := r.retryAfter.getD "60"
    { success := false
      error := some ("Rate limit exceeded. Retry after " ++ retryAfter ++ " seconds")
      errorType := some "rate_limit"
      retryAfterOut := some retryAfter }
  else if r.statusCode = 401 then
    { success := false
      error := some "Invalid API key or unauthorized access"
      errorType := some "authentication_error" }
  else if r.statusCode = 402 then
    { success := false
      error := some "Quota exceeded. Please check your ElevenLabs subscription"
      errorType := some "quota_exceeded" }
  else if r.statusCode = 404 then
    { success := false
      error := some ("Voice ID " ++ voiceId ++ " not found")
      errorType := some "voice_not_found" }
  else if r.statusCode = 422 then
    match r.json with
    | some b =>
      { success := false
        error := some ("Validation error: " ++ b.detail.getD "Invalid parameters")
        errorType := some "validation_error" }
    | none =>
      { success := false
        error := some "Validation error with invalid parameters"
        errorType := some "validation_error" }
  else if r.statusCode = 200 then
    { success := true }
  else
    let msg :=
      match r.json with
      | some b => b.detail.getD ("HTTP " ++ toString r.statusCode ++ " error")
      | none => "HTTP " ++ toString r.statusCode ++ " error"
    { success := false
      error := some msg
      errorType := some "api_error"
      statusCodeOut := some r.statusCode }

end ElevenLabs

namespace RenderClient

/-- Single frame of a storyboard request
(`RenderStoryboardFrame`; only the content-bearing prompt fields are
kept, the claims depend only on the frame count). -/
structure Frame where
  prompt : String
  negativePrompt : Option String := none
  seed : Option Int := none
deriving Repr, DecidableEq

/-- Embedding of the pydantic validator
`RenderStoryboardRequest.validate_frames`: an empty list (falsy in
Python) or more than 12 frames raises `ValueError`. -/
def validate_frames (value : List Frame) : Except String (List Frame) :=
  if value = [] then
    .error "At least one frame must be provided"
  else if value.length > 12 then
    .error "A maximum of 12 frames per storyboard is supported"
  else
    .ok value

/-- Relevant fields of a JSON body returned by the Render MCP service:
`isEmpty` models a falsy (empty) dict, the remaining fields model
`data.get(...)` lookups. -/
structure Body where
  isEmpty : Bool := false
  status : Option String := none
  statusUrl : Option String := none
  jobId : Option String := none
  error : Option String := none
  message : Option String := none
deriving Repr, DecidableEq

/-- Each `raise` site of the client becomes one constructor: the
`RenderMCPError` messages are distinct per site, with the dynamic parts
kept as fields (the repr of the details dict in `_raise_http_error` is
elided, keeping the status code).  `invalidRequest` models the pydantic
`ValueError`; `exhausted` is model-only, reached when the scripted
transport trace runs out of responses. -/
inductive RenderError where
  | timedOut
  | httpError (status : Nat)
  | reportedFailure (msg : String)
  | emptyResponse
  | missingStatusUrl
  | invalidRequest (msg : String)
  | exhausted
deriving Repr, DecidableEq

/-- Configuration state of a constructed `RenderMCPClient` (the
`timeout` field configures the HTTP transport and is not modelled). -/
structure Client where
  baseUrl : String
  token : String
  pollInterval : Nat := 5
  maxPollTime : Nat := 300
deriving Repr, DecidableEq

/-- Embedding of `RenderMCPClient.__init__`: `base_url or
os.getenv("RENDER_MCP_URL", default)` and `token or
os.getenv("RENDER_MCP_TOKEN")` with Python truthiness, raising
`ValueError` when the resulting token is falsy. -/
def mkClient (baseUrlArg tokenArg envUrl envToken : Option String)
    (pollInterval : Nat := 5) (maxPollTime : Nat := 300) :
    Except String Client :=
  let baseUrl :=
    match pyOrStr baseUrlArg (some (envUrl.getD "https://mcp.render.com/mcp")) with
    | some b => b
    | none => ""
  match truthyStr (pyOrStr tokenArg envToken) with
  | none =>
    .error "Render MCP token not provided. Set RENDER_MCP_TOKEN env variable or pass token explicitly."
  | some t =>
    .ok { baseUrl := baseUrl, token := t, pollInterval := pollInterval,
          maxPollTime := maxPollTime }

/-- Embedding of the `RenderMCPClient._headers` property. -/
def headersOf (c : Client) : List (String × String) :=
  [("Authorization", "Bearer " ++ c.token),
   ("Content-Type", "application/json"),
   ("Accept", "application/json")]

/-- Embedding of `RenderMCPClient._ensure_success`: an empty body or a
raw (not lower-cased) status of "failed"/"error" raises. -/
def ensure_success (b : Body) : Except RenderError Unit :=
  if b.isEmpty then
    .error .emptyResponse
  else if b.status = some "failed" ∨ b.status = some "error" then
    .error (.reportedFailure ((truthyStr b.error).getD "Render MCP reported failure"))
  else
    .ok ()

/-- Three-way classification of a raw status field as the poll loop of
`_poll_until_complete` performs it: `data.get("status",
"unknown").lower()` compared against the success and failure
vocabularies, anything else continuing the loop. -/
inductive StatusClass where
  | success
  | failure
  | pending
deriving Repr, DecidableEq

/-- Status-vocabulary lookup of `RenderMCPClient._poll_until_complete`
(lines 142-148): lower-cased membership in {succeeded, completed,
ready} / {failed, error}. -/
def parse_status (raw : Option String) : StatusClass :=
  let s := pyLower (raw.getD "unknown")
  if s = "succeeded" ∨ s = "completed" ∨ s = "ready" then .success
  else if s = "failed" ∨ s = "error" then .failure
  else .pending

/-- One scripted response of the status endpoint. -/
structure PollResp where
  status : Nat
  body : Body
deriving Repr, DecidableEq

/-- Embedding of `RenderMCPClient._poll_until_complete` over a scripted
trace of status responses: the result, the final elapsed time and the
number of status calls issued.  Elapsed time starts at 0 and advances by
`interval` at each `asyncio.sleep`; the deadline test `loop.time() -
start > max_poll_time` runs at the top of every iteration, before the
GET. -/
def poll_until_complete (interval maxWait : Nat) :
    List PollResp → Nat → Nat → Except RenderError Body × Nat × Nat
  | resps, elapsed, calls =>
    if elapsed > maxWait then
      (.error .timedOut, elapsed, calls)
    else
      match resps with
      | [] => (.error .exhausted, elapsed, calls)
      | r :: rest =>
        if r.status ≠ 200 ∧ r.status ≠ 202 then
          (.error (.httpError r.status), elapsed, calls + 1)
        else
          match parse_status r.body.status with
          | .success =>
            match ensure_success r.body with
            | .ok _ => (.ok r.body, elapsed, calls + 1)
            | .error e => (.error e, elapsed, calls + 1)
          | .failure =>
            (.error (.reportedFailure
              ((pyOrStr r.body.error r.body.message).getD "Render MCP reported failure")),
             elapsed, calls + 1)
          | .pending =>
            poll_until_complete interval maxWait rest (elapsed + interval) (calls + 1)

/-- Python `s.endswith("/")`: the last character is a slash. -/
def endsWithSlash (s : String) : Bool :=
  s.data.getLast? == some '/'

/-- Python `s[:-1]`: the string without its last character. -/
def dropLastChar (s : String) : String :=
  ⟨s.data.dropLast⟩

/-- Embedding of `RenderMCPClient._infer_status_url`: strip one trailing
slash from the base URL, then append "/jobs/" and the job id. -/
def infer_status_url (baseUrl jobId : String) : String :=
  let base := if endsWithSlash baseUrl then dropLastChar baseUrl else baseUrl
  base ++ "/jobs/" ++ jobId

/-- Status-URL selection of the 202 branch of `generate_storyboard`
(lines 111-120): keep a truthy `status_url`, otherwise derive it from a
truthy `job_id`, otherwise fail. -/
def resolveStatusUrl (baseUrl : String) (statusUrl jobId : Option String) :
    Option String :=
  match truthyStr statusUrl with
  | some u => some u
  | none =>
    match truthyStr jobId with
    | some j => some (infer_status_url baseUrl j)
    | none => none

/-- One scripted submission response (the POST of
`generate_storyboard`). -/
structure SubmitResp where
  status : Nat
  body : Body
deriving Repr, DecidableEq

/-- Embedding of the response handling of
`RenderMCPClient.generate_storyboard` over a scripted transport:
result, number of submission POSTs, number of status GETs. -/
def generate_storyboard (c : Client) (sub : SubmitResp)
    (polls : List PollResp) : Except RenderError Body × Nat × Nat :=
  if sub.status = 200 ∨ sub.status = 201 then
    match ensure_success sub.body with
    | .ok _ => (.ok sub.body, 1, 0)
    | .error e => (.error e, 1, 0)
  else if sub.status = 202 then
    match resolveStatusUrl c.baseUrl sub.body.statusUrl sub.body.jobId with
    | none => (.error .missingStatusUrl, 1, 0)
    | some _ =>
      let out := poll_until_complete c.pollInterval c.maxPollTime polls 0 0
      (out.1, 1, out.2.2)
  else
    (.error (.httpError sub.status), 1, 0)

/-- Pipeline of constructing a `RenderStoryboardRequest` (running the
pydantic validator) and then calling `generate_storyboard` with it:
validation failure raises before any HTTP call, so both call counters
stay 0. -/
def submitStoryboard (c : Client) (frames : List Frame) (sub : SubmitResp)
    (polls : List PollResp) : Except RenderError Body × Nat × Nat :=
  match validate_frames frames with
  | .error e => (.error (.invalidRequest e), 0, 0)
  | .ok _ => generate_storyboard c sub polls

end RenderClient

namespace Runway

/-- Arguments of `RunwayVideoTool._run` with their source defaults. -/
structure RunInput where
  prompt : String
  imageUrl : Option String := none
  duration : Nat := 5
  quality : String := "standard"
  aspectRatio : String := "16:9"
  seed : Option Int := none
deriving Repr, DecidableEq

/-- Relevant parts of the JSON body of a submission response:
`errorDetail` is the value of `error_data.get("detail",
error_data.get("error", str(error_data)))` when `response.json()`
succeeds (`none` models the JSON parse raising), `rawText` is
`response.text`. -/
structure SubmitBody where
  id : Option String := none
  errorDetail : Option String := none
  rawText : String := ""
deriving Repr, DecidableEq

/-- Scripted outcome of the submission POST, including the
`requests` exceptions caught by the outer handlers. -/
inductive SubmitResp where
  | exnConnection
  | exnTimeout
  | exnOther (msg : String)
  | httpResp (status : Nat) (retryAfter : Option String) (body : SubmitBody)
deriving Repr, DecidableEq

/-- Relevant parts of a status-response body: the raw `status` string
and the already-extracted video URL and failure reason (the
dict-or-string shape of `output` is collapsed to the extracted URL,
which no claim inspects). -/
structure StatusBody where
  status : Option String := none
  outputUrl : Option String := none
  failureReason : Option String := none
deriving Repr, DecidableEq

/-- Scripted outcome of one status GET: an HTTP response with a
JSON-parseable body, or a `requests.exceptions.RequestException`. -/
inductive PollResp where
  | exn (msg : String)
  | httpResp (status : Nat) (body : StatusBody)
deriving Repr, DecidableEq

/-- Model of the JSON object serialized and returned by
`RunwayVideoTool._run` (estimated cost is a float computation no claim
touches and is omitted; remaining informational fields are kept). -/
structure RunOutput where
  success : Bool
  error : Option String := none
  suggestion : Option String := none
  generationId : Option String := none
  videoUrl : Option String := none
  statusOut : Option String := none
  retryAfterOut : Option String := none
  statusCodeOut : Option Nat := none
  generationTime : Option Nat := none
deriving Repr, DecidableEq

/-- Four-way classification of `status_data.get("status", "unknown")`
as the monitoring loop performs it: the comparisons are raw string
equality against upper-case vocabulary, with no lower-casing. -/
inductive TaskStatusClass where
  | succeeded
  | failed
  | pendingRunning
  | unknown
deriving Repr, DecidableEq

/-- Status comparison chain of the monitoring loop (lines 164-212):
`== "SUCCEEDED"`, `== "FAILED"`, `in ["PENDING", "RUNNING"]`, else
unknown; case-sensitive. -/
def classify_status (raw : Option String) : TaskStatusClass :=
  let s := raw.getD "unknown"
  if s = "SUCCEEDED" then .succeeded
  else if s = "FAILED" then .failed
  else if s = "PENDING" ∨ s = "RUNNING" then .pendingRunning
  else .unknown

/-- Value of `max_attempts` in `RunwayVideoTool._run`. -/
def maxAttempts : Nat := 60

/-- Output returned when the while-loop exits with
`attempt >= max_attempts`. -/
def timeoutOutput (generationId : String) : RunOutput :=
  { success := false
    error := some "Generation timeout - video is still processing"
    generationId := some generationId
    statusOut := some "timeout"
    suggestion := some "Check generation status later using the generation_id" }

/-- Embedding of the monitoring while-loop of `RunwayVideoTool._run`
(lines 154-232) over a scripted stream of status responses: `resp n` is
the outcome of the (n+1)-th GET; the pair returned is the JSON output
and the number of status calls issued.  Every non-terminal branch
(non-200 response, pending/running, unknown status, request exception)
increments `attempt`; the exception branch returns a distinct error
once the incremented attempt reaches `max_attempts`. -/
def poll_loop (resp : Nat → PollResp) (generationId : String)
    (inp : RunInput) (attempt calls : Nat) : RunOutput × Nat :=
  if h : attempt < maxAttempts then
    match resp calls with
    | .exn msg =>
      if attempt + 1 ≥ maxAttempts then
        ({ success := false
           error := some ("Failed to check generation status: " ++ msg)
           generationId := some generationId }, calls + 1)
      else
        poll_loop resp generationId inp (attempt + 1) (calls + 1)
    | .httpResp st body =>
      if st ≠ 200 then
        poll_loop resp generationId inp (attempt + 1) (calls + 1)
      else
        match classify_status body.status with
        | .succeeded =>
          ({ success := true
             generationId := some generationId
             videoUrl := body.outputUrl
             statusOut := some "completed"
             generationTime := some (attempt * 5) }, calls + 1)
        | .failed =>
          ({ success := false
             error := some ("Video generation failed: " ++
               (body.failureReason.getD "Generation failed"))
             generationId := some generationId
             statusOut := body.status }, calls + 1)
        | .pendingRunning =>
          poll_loop resp generationId inp (attempt + 1) (calls + 1)
        | .unknown =>
          poll_loop resp generationId inp (attempt + 1) (calls + 1)
  else
    (timeoutOutput generationId, calls)
termination_by maxAttempts - attempt
decreasing_by all_goals omega

/-- Scripted environment of one `_run` invocation: the
`RUNWAYML_API_KEY` lookup, the submission outcome and the status-GET
stream. -/
structure Env where
  apiKey : Option String := none
  submit : SubmitResp
  poll : Nat → PollResp

/-- Embedding of `RunwayVideoTool._run`: API-key lookup, the three local
input validations, submission handling (429, 402, other non-200,
missing id) and the monitoring loop; returns the JSON output and the
number of status calls issued. -/
def run (env : Env) (inp : RunInput) : RunOutput × Nat :=
  match truthyStr env.apiKey with
  | none =>
    ({ success := false
       error := some "RUNWAYML_API_KEY environment variable is required but not found"
       suggestion := some "Please set your Runway ML API key in the RUNWAYML_API_KEY environment variable" }, 0)
  | some _ =>
    if inp.duration ≠ 5 ∧ inp.duration ≠ 10 then
      ({ success := false
         error := some "Invalid duration. Must be 5 or 10 seconds" }, 0)
    else if inp.quality ≠ "standard" ∧ inp.quality ≠ "high" then
      ({ success := false
         error := some "Invalid quality. Must be standard or high" }, 0)
    else if inp.aspectRatio ≠ "16:9" ∧ inp.aspectRatio ≠ "9:16" ∧ inp.aspectRatio ≠ "1:1" then
      ({ success := false
         error := some "Invalid aspect ratio. Must be 16:9, 9:16, or 1:1" }, 0)
    else
      match env.submit with
      | .exnConnection =>
        ({ success := false
           error := some "Failed to connect to Runway ML API"
           suggestion := some "Please check your internet connection and try again" }, 0)
      | .exnTimeout =>
        ({ success := false
           error := some "Request timeout"
           suggestion := some "The API request timed out. Please try again" }, 0)
      | .exnOther msg =>
        ({ success := false
           error := some ("Unexpected error: " ++ msg) }, 0)
      | .httpResp st retryAfter body =>
        if st = 429 then
          ({ success := false
             error := some "Rate limit exceeded"
             retryAfterOut := some (retryAfter.getD "60")
             suggestion := some "Please wait before making another request" }, 0)
        else if st = 402 then
          ({ success := false
             error := some "Insufficient credits"
             suggestion := some "Please add credits to your Runway ML account" }, 0)
        else if st ≠ 200 then
          let errorDetail :=
            match body.errorDetail with
            | some d => d
            | none => "HTTP " ++ toString st ++ ": " ++ (body.rawText.take 200)
          ({ success := false
             error := some ("API request failed: " ++ errorDetail)
             statusCodeOut := some st }, 0)
        else
          match truthyStr body.id with
          | none =>
            ({ success := false
               error := some "No generation ID received from API" }, 0)
          | some gid => poll_loop env.poll gid inp 0 0

end Runway

/-- C1 counterexample: the claim requires an unmatched 4xx status to be
classified `Fatal` and an unmatched 5xx status `Transient` — two distinct
kinds.  The code classifies 400 and 500 with the same generic kind
`api_error`, so no renaming of kinds can satisfy the claim: at statuses
400 and 500 the classification function returns equal error kinds. -/
theorem C1_counterexample :
    (ElevenLabs.classifyResponse "v" { statusCode := 400 }).errorType =
      (ElevenLabs.classifyResponse "v" { statusCode := 500 }).errorType ∧
    (ElevenLabs.classifyResponse "v" { statusCode := 500 }).errorType =
      some "api_error" := by
  constructor <;> rfl

/-- C1 amended: the classification chain maps 401 to
`authentication_error`, 429 to `rate_limit` with a retry-after hint taken
from the header and defaulting to "60", 402 to `quota_exceeded`, 404 to
`voice_not_found`, 422 to `validation_error`, 200 to success, and every
other status — 4xx and 5xx alike — to the single generic kind
`api_error` carrying the status code; the checks are applied in source
order 429, 401, 402, 404, 422, 200 with first match winning (the listed
statuses are mutually exclusive, so the ordering does not change the
mapping). -/
theorem C1_amended (v : String) (r : ElevenLabs.Response) :
    (r.statusCode = 401 →
      (ElevenLabs.classifyResponse v r).errorType = some "authentication_error") ∧
    (r.statusCode = 429 →
      (ElevenLabs.classifyResponse v r).errorType = some "rate_limit" ∧
      (ElevenLabs.classifyResponse v r).retryAfterOut = some (r.retryAfter.getD "60")) ∧
    (r.statusCode = 402 →
      (ElevenLabs.classifyResponse v r).errorType = some "quota_exceeded") ∧
    (r.statusCode = 404 →
      (ElevenLabs.classifyResponse v r).errorType = some "voice_not_found") ∧
    (r.statusCode = 422 →
      (ElevenLabs.classifyResponse v r).errorType = some "validation_error") ∧
    (r.statusCode = 200 →
      (ElevenLabs.classifyResponse v r).success = true) ∧
    (r.statusCode ∉ ([429, 401, 402, 404, 422, 200] : List Nat) →
      (ElevenLabs.classifyResponse v r).errorType = some "api_error" ∧
      (ElevenLabs.classifyResponse v r).statusCodeOut = some r.statusCode) := by
  refine ⟨?_, ?_, ?_, ?_, ?_, ?_, ?_⟩ <;> intro h
  · simp only [ElevenLabs.classifyResponse, h]; rfl
  · simp only [ElevenLabs.classifyResponse, h]; exact ⟨rfl, rfl⟩
  · simp only [ElevenLabs.classifyResponse, h]; rfl
  · simp only [ElevenLabs.classifyResponse, h]; rfl
  · simp only [ElevenLabs.classifyResponse, h]
    cases r.json <;> rfl
  · simp only [ElevenLabs.classifyResponse, h]; rfl
  · simp only [List.mem_cons, List.mem_singleton] at h
    push_neg at h
    obtain ⟨h429, h401, h402, h404, h422, h200⟩ := h
    cases hj : r.json <;>
      simp [ElevenLabs.classifyResponse, h429, h401, h402, h404, h422, h200, hj]

/-- C1 amended witness: the characterization evaluated at concrete
responses with statuses 401, 429 (header present), 404 and 503. -/
theorem C1_witness :
    (ElevenLabs.classifyResponse "v" { statusCode := 401 }).errorType =
      some "authentication_error" ∧
    (ElevenLabs.classifyResponse "v"
        { statusCode := 429, retryAfter := some "7" }).retryAfterOut = some "7" ∧
    (ElevenLabs.classifyResponse "v" { statusCode := 404 }).errorType =
      some "voice_not_found" ∧
    (ElevenLabs.classifyResponse "v" { statusCode := 503 }).errorType =
      some "api_error" := by
  refine ⟨(C1_amended "v" { statusCode := 401 }).1 rfl, ?_, ?_, ?_⟩
  · exact ((C1_amended "v" { statusCode := 429, retryAfter := some "7" }).2.1 rfl).2
  · exact (C1_amended "v" { statusCode := 404 }).2.2.2.1 rfl
  · exact ((C1_amended "v" { statusCode := 503 }).2.2.2.2.2.2 (by decide)).1

/-- Helper: a string with a non-empty left factor is itself non-empty. -/
theorem append_ne_empty_left : ∀ (s t : String), s ≠ "" → s ++ t ≠ ""
  | ⟨l⟩, ⟨m⟩, h, he => by
    apply h
    have h2 : String.mk (l ++ m) = String.mk [] := by
      rw [← String.congr_append]; exact he
    have h3 : l ++ m = [] := by injection h2
    have hl : l = [] := (List.append_eq_nil.mp h3).1
    rw [hl]

/-- Helper: appending a non-empty string on the right changes the string. -/
theorem append_ne_self : ∀ (s t : String), t ≠ "" → s ++ t ≠ s
  | ⟨l⟩, ⟨m⟩, h, he => by
    apply h
    have h2 : String.mk (l ++ m) = String.mk l := by
      rw [← String.congr_append]; exact he
    have h3 : l ++ m = l := by injection h2
    have hm : m = [] := by
      have := congrArg List.length h3
      simpa using this
    rw [hm]

/-- Helper: `truthyStr` only ever returns non-empty strings. -/
theorem truthyStr_ne_empty {x : Option String} {t : String}
    (h : truthyStr x = some t) : t ≠ "" := by
  match x with
  | none => simp [truthyStr] at h
  | some s =>
    simp only [truthyStr] at h
    by_cases hs : s = ""
    · simp [hs] at h
    · simp [hs] at h
      exact h ▸ hs

/-- Predicate on a scripted render status response: one the poll loop of
`_poll_until_complete` treats as still pending (accepted HTTP status,
status string outside both terminal vocabularies). -/
def renderPending (r : RenderClient.PollResp) : Prop :=
  (r.status = 200 ∨ r.status = 202) ∧
    RenderClient.parse_status r.body.status = .pending

instance (r : RenderClient.PollResp) : Decidable (renderPending r) := by
  unfold renderPending; infer_instance

/-- Helper: over a trace of only pending responses the render poll loop
keeps the invariant elapsed = calls * interval, never lets the elapsed
time pass maxWait + interval, and ends in the distinct timeout error. -/
theorem render_poll_pending_aux (interval maxWait : Nat) :
    ∀ (resps : List RenderClient.PollResp) (elapsed calls : Nat),
      (∀ r ∈ resps, renderPending r) →
      elapsed ≤ maxWait + interval →
      maxWait < elapsed + resps.length * interval →
      elapsed = calls * interval →
      ∃ e k, RenderClient.poll_until_complete interval maxWait resps elapsed calls =
          (.error .timedOut, e, k) ∧ e ≤ maxWait + interval ∧ e = k * interval := by
  intro resps
  induction resps with
  | nil =>
    intro elapsed calls _ hle hlt heq
    have hgt : elapsed > maxWait := by simp at hlt; omega
    rw [RenderClient.poll_until_complete]
    simp only [hgt, if_true, gt_iff_lt, if_pos]
    exact ⟨elapsed, calls, rfl, hle, heq⟩
  | cons r rest ih =>
    intro elapsed calls hp hle hlt heq
    rw [RenderClient.poll_until_complete]
    by_cases hgt : elapsed > maxWait
    · simp only [hgt, if_pos]
      exact ⟨elapsed, calls, rfl, hle, heq⟩
    · simp only [hgt, if_neg, if_false]
      obtain ⟨hst, hps⟩ := hp r (List.mem_cons_self r rest)
      have hcond : ¬ (r.status ≠ 200 ∧ r.status ≠ 202) := by
        rcases hst with h | h <;> simp [h]
      simp only [hcond, if_neg, if_false]
      rw [hps]
      apply ih (elapsed + interval) (calls + 1)
        (fun x hx => hp x (List.mem_cons_of_mem r hx))
        (by omega)
      · rw [List.length_cons] at hlt
        have h5 : (rest.length + 1) * interval = rest.length * interval + interval := by
          ring
        rw [h5] at hlt
        generalize rest.length * interval = p at hlt ⊢
        omega
      · rw [heq]; ring

/-- C2: with only pending status responses scripted and enough of them to
outlast the budget, the render poller ends with the distinct `timedOut`
error — never a silent retry — and its final elapsed wait exceeds
`max_poll_time` by at most one poll interval; the status calls issued
satisfy the same bound through elapsed = calls * interval, so no status
call is made after the deadline is exceeded. -/
theorem C2_theorem (interval maxWait : Nat)
    (resps : List RenderClient.PollResp)
    (hp : ∀ r ∈ resps, renderPending r)
    (hn : maxWait < resps.length * interval) :
    ∃ e k, RenderClient.poll_until_complete interval maxWait resps 0 0 =
        (.error .timedOut, e, k) ∧
      e ≤ maxWait + interval ∧ k * interval ≤ maxWait + interval := by
  obtain ⟨e, k, h1, h2, h3⟩ :=
    render_poll_pending_aux interval maxWait resps 0 0 hp (by omega) (by omega)
      (by simp)
  refine ⟨e, k, h1, h2, ?_⟩
  rw [← h3]
  exact h2

/-- C2 witness: interval 5, budget 12, three scripted pending responses:
the poller times out after 3 calls with elapsed 15 ≤ 12 + 5. -/
theorem C2_witness :
    ∃ e k, RenderClient.poll_until_complete 5 12
        (List.replicate 3 { status := 200, body := { status := some "processing" } })
        0 0 =
      (.error .timedOut, e, k) ∧ e ≤ 12 + 5 ∧ k * 5 ≤ 12 + 5 :=
  C2_theorem 5 12 _ (by decide) (by decide)

/-- C4: the pydantic frame validator accepts a storyboard frame list
exactly when it has between 1 and 12 frames, and an invalid list makes
the submission pipeline fail with the validation error while both the
submission-POST and status-GET counters stay at 0: no network call is
attempted. -/
theorem C4_theorem (fs : List RenderClient.Frame) :
    ((∃ v, RenderClient.validate_frames fs = .ok v) ↔
      1 ≤ fs.length ∧ fs.length ≤ 12) ∧
    (∀ (c : RenderClient.Client) (sub : RenderClient.SubmitResp)
        (polls : List RenderClient.PollResp),
      fs.length = 0 ∨ 12 < fs.length →
      ∃ m, RenderClient.submitStoryboard c fs sub polls =
        (.error (.invalidRequest m), 0, 0)) := by
  constructor
  · unfold RenderClient.validate_frames
    by_cases h1 : fs = []
    · subst h1; simp
    · have hpos : 0 < fs.length := List.length_pos.mpr h1
      by_cases h2 : fs.length > 12
      · simp only [h1, if_neg, if_false, h2, if_pos]
        constructor
        · rintro ⟨v, hv⟩; cases hv
        · intro h; omega
      · simp only [h1, if_neg, if_false, h2, if_pos]
        constructor
        · intro _; omega
        · intro _; exact ⟨fs, rfl⟩
  · intro c sub polls h
    unfold RenderClient.submitStoryboard RenderClient.validate_frames
    rcases h with h | h
    · have h1 : fs = [] := List.length_eq_zero.mp h
      subst h1
      exact ⟨_, rfl⟩
    · have h1 : fs ≠ [] := by
        intro he; subst he; simp at h
      simp only [h1, if_neg, if_false, h, if_pos, gt_iff_lt]
      exact ⟨_, rfl⟩

/-- C4 witness: a 13-frame request is rejected with zero network calls,
and a 1-frame request passes the validator. -/
theorem C4_witness :
    (∃ m, RenderClient.submitStoryboard
        { baseUrl := "https://mcp.render.com/mcp", token := "tok" }
        (List.replicate 13 { prompt := "p" })
        { status := 200, body := {} } [] =
      (.error (.invalidRequest m), 0, 0)) ∧
    (∃ v, RenderClient.validate_frames [{ prompt := "p" }] = .ok v) :=
  ⟨(C4_theorem _).2 _ _ _ (Or.inr (by simp)),
   (C4_theorem _).1.mpr (by simp)⟩

/-- C6: when a 202 submission body carries a (truthy) job id but no
status URL, the status URL is taken from `_infer_status_url`, which
appends "/jobs/" and the id after stripping exactly one trailing slash
when present; in particular base https://mcp.render.com/mcp with job id
abc123 yields https://mcp.render.com/mcp/jobs/abc123. -/
theorem C6_theorem :
    RenderClient.resolveStatusUrl "https://mcp.render.com/mcp" none (some "abc123") =
      some "https://mcp.render.com/mcp/jobs/abc123" ∧
    (∀ baseUrl jobId : String, jobId ≠ "" →
      RenderClient.resolveStatusUrl baseUrl none (some jobId) =
        some (RenderClient.infer_status_url baseUrl jobId)) ∧
    (∀ baseUrl jobId : String, RenderClient.endsWithSlash baseUrl = false →
      RenderClient.infer_status_url baseUrl jobId = baseUrl ++ "/jobs/" ++ jobId) ∧
    (∀ baseUrl jobId : String,
      RenderClient.infer_status_url (baseUrl ++ "/") jobId =
        baseUrl ++ "/jobs/" ++ jobId) := by
  refine ⟨rfl, ?_, ?_, ?_⟩
  · intro baseUrl jobId h
    simp [RenderClient.resolveStatusUrl, truthyStr, h]
  · intro baseUrl jobId h
    simp [RenderClient.infer_status_url, h]
  · intro baseUrl jobId
    have he : RenderClient.endsWithSlash (baseUrl ++ "/") = true := by
      cases baseUrl with
      | mk l =>
        show ((l ++ ['/']).getLast? == some '/') = true
        rw [List.getLast?_concat]
        rfl
    have hd : RenderClient.dropLastChar (baseUrl ++ "/") = baseUrl := by
      cases baseUrl with
      | mk l =>
        show String.mk ((l ++ ['/']).dropLast) = String.mk l
        rw [List.dropLast_concat]
    simp [RenderClient.infer_status_url, he, hd]

/-- C6 witness: the derivation applied to a slash-free base, to the same
base with a trailing slash, and through the 202-branch selection. -/
theorem C6_witness :
    RenderClient.resolveStatusUrl "https://api.example.com" none (some "j1") =
      some (RenderClient.infer_status_url "https://api.example.com" "j1") ∧
    RenderClient.infer_status_url "https://api.example.com" "j1" =
      "https://api.example.com" ++ "/jobs/" ++ "j1" ∧
    RenderClient.infer_status_url ("https://api.example.com" ++ "/") "j1" =
      "https://api.example.com" ++ "/jobs/" ++ "j1" :=
  ⟨C6_theorem.2.1 _ _ (by decide),
   C6_theorem.2.2.1 _ _ (by decide),
   C6_theorem.2.2.2 _ _⟩

/-- C10: every successfully constructed client holds a non-empty token,
its headers carry the corresponding Authorization entry whose value
strictly extends "Bearer ", and the constructor raises `ValueError` when
neither an explicit token nor the environment token is available. -/
theorem C10_theorem :
    (∀ (baseUrlArg tokenArg envUrl envToken : Option String)
        (pollInterval maxPollTime : Nat) (c : RenderClient.Client),
      RenderClient.mkClient baseUrlArg tokenArg envUrl envToken
        pollInterval maxPollTime = .ok c →
      c.token ≠ "" ∧
      ("Authorization", "Bearer " ++ c.token) ∈ RenderClient.headersOf c ∧
      "Bearer " ++ c.token ≠ "Bearer ") ∧
    (∀ (baseUrlArg envUrl : Option String) (pollInterval maxPollTime : Nat),
      ∃ e, RenderClient.mkClient baseUrlArg none envUrl none
        pollInterval maxPollTime = .error e) := by
  constructor
  · intro baseUrlArg tokenArg envUrl envToken pollInterval maxPollTime c h
    have htok : c.token ≠ "" := by
      unfold RenderClient.mkClient at h
      cases hx : truthyStr (pyOrStr tokenArg envToken) with
      | none => rw [hx] at h; cases h
      | some t =>
        rw [hx] at h
        have hct : c.token = t := by
          injection h with h2
          rw [← h2]
        rw [hct]
        exact truthyStr_ne_empty hx
    refine ⟨htok, ?_, ?_⟩
    · simp [RenderClient.headersOf]
    · exact append_ne_self _ _ htok
  · intro baseUrlArg envUrl pollInterval maxPollTime
    exact ⟨_, rfl⟩

/-- C10 witness: constructing a client from an explicit token "tok" and
reading its authorization header. -/
theorem C10_witness :
    ({ baseUrl := "https://mcp.render.com/mcp", token := "tok" } :
        RenderClient.Client).token ≠ "" ∧
    ("Authorization",
      "Bearer " ++ ({ baseUrl := "https://mcp.render.com/mcp", token := "tok" } :
        RenderClient.Client).token) ∈
      RenderClient.headersOf
        { baseUrl := "https://mcp.render.com/mcp", token := "tok" } ∧
    "Bearer " ++ ({ baseUrl := "https://mcp.render.com/mcp", token := "tok" } :
        RenderClient.Client).token ≠ "Bearer " ∧
    (∃ e, RenderClient.mkClient none none none none 5 300 = .error e) :=
  let ok := C10_theorem.1 none (some "tok") none none 5 300
    { baseUrl := "https://mcp.render.com/mcp", token := "tok" } rfl
  ⟨ok.1, ok.2.1, ok.2.2, C10_theorem.2 none none 5 300⟩

/-- Predicate on a scripted Runway status response: one the monitoring
loop treats as still in progress while answering HTTP 200 (status
vocabulary PENDING/RUNNING, or an unknown status string). -/
def runwayPending (r : Runway.PollResp) : Bool :=
  match r with
  | .exn _ => false
  | .httpResp st b =>
    st == 200 &&
      (Runway.classify_status b.status == .pendingRunning ||
       Runway.classify_status b.status == .unknown)

/-- Helper: from attempt counter `attempt` on, the Runway monitoring
loop issues at most `maxAttempts - attempt` further status calls,
whatever the transport does. -/
theorem runway_calls_le (resp : Nat → Runway.PollResp) (gid : String)
    (inp : Runway.RunInput) :
    ∀ fuel attempt calls, Runway.maxAttempts - attempt ≤ fuel →
      (Runway.poll_loop resp gid inp attempt calls).2 ≤
        calls + (Runway.maxAttempts - attempt) := by
  intro fuel
  induction fuel with
  | zero =>
    intro attempt calls hf
    have hguard : ¬ attempt < Runway.maxAttempts := by omega
    rw [Runway.poll_loop.eq_def]
    simp [hguard]
  | succ n ih =>
    intro attempt calls hf
    by_cases hguard : attempt < Runway.maxAttempts
    · rw [Runway.poll_loop.eq_def]
      simp only [hguard, dif_pos]
      cases hr : resp calls with
      | exn msg =>
        by_cases hx : attempt + 1 ≥ Runway.maxAttempts
        · simp [hx]
          omega
        · simp [hx]
          have := ih (attempt + 1) (calls + 1) (by omega)
          omega
      | httpResp st b =>
        rcases eq_or_ne st 200 with hst | hst
        · subst hst
          cases hc : Runway.classify_status b.status with
          | succeeded => simp [hc]; omega
          | failed => simp [hc]; omega
          | pendingRunning =>
            simp [hc]
            have := ih (attempt + 1) (calls + 1) (by omega)
            omega
          | unknown =>
            simp [hc]
            have := ih (attempt + 1) (calls + 1) (by omega)
            omega
        · simp [hst]
          have := ih (attempt + 1) (calls + 1) (by omega)
          omega
    · rw [Runway.poll_loop.eq_def, dif_neg hguard]
      exact Nat.le_add_right _ _

/-- Helper: when every scripted status response is a pending one, the
Runway monitoring loop runs its attempt counter to `maxAttempts`,
issuing one status call per attempt, and returns the timeout output. -/
theorem runway_all_pending (resp : Nat → Runway.PollResp) (gid : String)
    (inp : Runway.RunInput) (hp : ∀ n, runwayPending (resp n) = true) :
    ∀ fuel attempt calls, Runway.maxAttempts - attempt ≤ fuel →
      Runway.poll_loop resp gid inp attempt calls =
        (Runway.timeoutOutput gid, calls + (Runway.maxAttempts - attempt)) := by
  intro fuel
  induction fuel with
  | zero =>
    intro attempt calls hf
    have hguard : ¬ attempt < Runway.maxAttempts := by omega
    rw [Runway.poll_loop.eq_def, dif_neg hguard]
    have hz : Runway.maxAttempts - attempt = 0 := by omega
    rw [hz]
    rfl
  | succ n ih =>
    intro attempt calls hf
    by_cases hguard : attempt < Runway.maxAttempts
    · rw [Runway.poll_loop.eq_def]
      simp only [hguard, dif_pos]
      have hpc := hp calls
      cases hr : resp calls with
      | exn msg => rw [hr] at hpc; simp [runwayPending] at hpc
      | httpResp st b =>
        rw [hr] at hpc
        simp only [runwayPending, Bool.and_eq_true, Bool.or_eq_true,
          beq_iff_eq] at hpc
        obtain ⟨hst, hcls⟩ := hpc
        subst hst
        have harith : calls + 1 + (Runway.maxAttempts - (attempt + 1)) =
            calls + (Runway.maxAttempts - attempt) := by omega
        rcases hcls with hc | hc <;>
          · simp [hc]
            rw [ih (attempt + 1) (calls + 1) (by omega), harith]
    · rw [Runway.poll_loop.eq_def, dif_neg hguard]
      have hz : Runway.maxAttempts - attempt = 0 := by omega
      rw [hz]
      rfl

/-- C9: the Runway monitoring loop always terminates within the attempt
budget: whatever the status stream answers, at most `max_attempts = 60`
status requests are issued, and when every response is a pending one the
loop returns the timeout output after exactly 60 status calls. -/
theorem C9_theorem :
    Runway.maxAttempts = 60 ∧
    (∀ (resp : Nat → Runway.PollResp) (gid : String) (inp : Runway.RunInput),
      (Runway.poll_loop resp gid inp 0 0).2 ≤ 60) ∧
    (∀ (resp : Nat → Runway.PollResp) (gid : String) (inp : Runway.RunInput),
      (∀ n, runwayPending (resp n) = true) →
      Runway.poll_loop resp gid inp 0 0 = (Runway.timeoutOutput gid, 60)) := by
  refine ⟨rfl, ?_, ?_⟩
  · intro resp gid inp
    have h := runway_calls_le resp gid inp 60 0 0 (by decide)
    have h60 : Runway.maxAttempts = 60 := rfl
    omega
  · intro resp gid inp hp
    have h := runway_all_pending resp gid inp hp 60 0 0 (by decide)
    simpa using h

/-- C9 witness: a constant PENDING status stream drives the loop to the
timeout output after exactly 60 status calls. -/
theorem C9_witness :
    Runway.poll_loop (fun _ => .httpResp 200 { status := some "PENDING" }) "gid"
      { prompt := "p" } 0 0 = (Runway.timeoutOutput "gid", 60) := by
  have hone : runwayPending
      (Runway.PollResp.httpResp 200 { status := some "PENDING" }) = true := by
    decide
  exact C9_theorem.2.2 _ _ _ (fun _ => hone)

/-- C5 counterexample: in the Runway tool a submission answered with
HTTP 200 and a non-failure body (a generation id and no failure marker)
does not return immediately: the tool proceeds to status polling — here
60 status calls end in the timeout output — contradicting that no
status-polling call is ever issued after a 200 submission. -/
theorem C5_counterexample :
    Runway.run
      { apiKey := some "k"
        submit := .httpResp 200 none { id := some "g1" }
        poll := fun _ => .httpResp 200 { status := some "PENDING" } }
      { prompt := "p" } =
      (Runway.timeoutOutput "g1", 60) ∧
    (Runway.timeoutOutput "g1").success = false := by
  constructor
  · have hone : runwayPending
        (Runway.PollResp.httpResp 200 { status := some "PENDING" }) = true := by
      decide
    have hp := runway_all_pending
      (fun _ => .httpResp 200 { status := some "PENDING" }) "g1" { prompt := "p" }
      (fun _ => hone) 60 0 0 (by decide)
    simp only [Runway.run, truthyStr]
    norm_num
    simpa using hp
  · rfl

/-- C5 amended: only the render MCP client returns immediately on a 200
submission: a 200/201 submission response whose body passes
`_ensure_success` yields the payload with zero status calls.  The Runway
tool treats 200 as its only accepted submission status and then always
polls: with a generation id present and a first status response that is
terminal, exactly one status call is still issued. -/
theorem C5_amended :
    (∀ (c : RenderClient.Client) (sub : RenderClient.SubmitResp)
        (polls : List RenderClient.PollResp),
      sub.status = 200 ∨ sub.status = 201 →
      RenderClient.ensure_success sub.body = .ok () →
      RenderClient.generate_storyboard c sub polls = (.ok sub.body, 1, 0)) ∧
    (Runway.run
        { apiKey := some "k"
          submit := .httpResp 200 none { id := some "g2" }
          poll := fun _ => .httpResp 200
            { status := some "SUCCEEDED", outputUrl := some "u" } }
        { prompt := "p" }).2 = 1 := by
  constructor
  · intro c sub polls hst hok
    unfold RenderClient.generate_storyboard
    simp [hst, hok]
  · show (Runway.poll_loop
        (fun _ => Runway.PollResp.httpResp 200
          { status := some "SUCCEEDED", outputUrl := some "u" })
        "g2" { prompt := "p" } 0 0).2 = 1
    rw [Runway.poll_loop.eq_def]
    simp [Runway.maxAttempts, Runway.classify_status]

/-- C5 amended witness: a concrete 200 submission with a non-failure
body returns immediately from the render client with zero status calls
even though a pending response is scripted on the status trace. -/
theorem C5_witness :
    RenderClient.generate_storyboard
      { baseUrl := "https://mcp.render.com/mcp", token := "tok" }
      { status := 200, body := { status := some "done" } }
      [{ status := 200, body := { status := some "succeeded" } }] =
      (.ok { status := some "done" }, 1, 0) :=
  C5_amended.1 _ _ _ (Or.inl rfl) rfl

/-- C3 counterexample: the Runway adapter's status parsing is not
case-insensitive: the lower-case spelling "succeeded" of its success
vocabulary is classified as an unknown status (so the loop continues)
while only the upper-case "SUCCEEDED" is terminal success. -/
theorem C3_counterexample :
    Runway.classify_status (some "succeeded") = .unknown ∧
    Runway.classify_status (some "SUCCEEDED") = .succeeded := by
  constructor <;> rfl

/-- C3 amended: status parsing is case-insensitive in the render MCP
client only: its classification of a raw status depends only on the
lower-cased string, with success vocabulary {succeeded, completed,
ready}, failure vocabulary {failed, error} and anything else pending.
The Runway tool compares case-sensitively against the upper-case
vocabulary SUCCEEDED / FAILED / PENDING / RUNNING, and any other value —
including lower-case spellings of its own vocabulary — is an unknown
status on which the loop continues. -/
theorem C3_amended :
    (∀ raw1 raw2 : String, pyLower raw1 = pyLower raw2 →
      RenderClient.parse_status (some raw1) = RenderClient.parse_status (some raw2)) ∧
    (∀ raw : String,
      (RenderClient.parse_status (some raw) = .success ↔
        pyLower raw = "succeeded" ∨ pyLower raw = "completed" ∨ pyLower raw = "ready") ∧
      (RenderClient.parse_status (some raw) = .failure ↔
        pyLower raw = "failed" ∨ pyLower raw = "error")) ∧
    (Runway.classify_status (some "SUCCEEDED") = .succeeded ∧
     Runway.classify_status (some "FAILED") = .failed ∧
     Runway.classify_status (some "Succeeded") = .unknown ∧
     Runway.classify_status (some "failed") = .unknown) := by
  refine ⟨?_, ?_, by decide⟩
  · intro r1 r2 h
    unfold RenderClient.parse_status
    simp only [Option.getD_some, h]
  · intro raw
    by_cases hs : pyLower raw = "succeeded" ∨ pyLower raw = "completed" ∨
        pyLower raw = "ready"
    · have hps : RenderClient.parse_status (some raw) = .success := by
        simp [RenderClient.parse_status, hs]
      have hnf : ¬ (pyLower raw = "failed" ∨ pyLower raw = "error") := by
        rcases hs with h | h | h <;> simp [h]
      exact ⟨by simp [hps, hs], by simp [hps, hnf]⟩
    · by_cases hf : pyLower raw = "failed" ∨ pyLower raw = "error"
      · have hps : RenderClient.parse_status (some raw) = .failure := by
          simp [RenderClient.parse_status, hs, hf]
        exact ⟨by simp [hps, hs], by simp [hps, hf]⟩
      · have hps : RenderClient.parse_status (some raw) = .pending := by
          simp [RenderClient.parse_status, hs, hf]
        exact ⟨by simp [hps, hs], by simp [hps, hf]⟩

/-- C3 amended witness: two spellings of "succeeded" with equal
lower-casings parse identically in the render client, and the
vocabulary characterization evaluated at the raw value "READY". -/
theorem C3_witness :
    RenderClient.parse_status (some "Succeeded") =
      RenderClient.parse_status (some "SUCCEEDED") ∧
    (RenderClient.parse_status (some "READY") = .success ↔
      pyLower "READY" = "succeeded" ∨ pyLower "READY" = "completed" ∨
        pyLower "READY" = "ready") :=
  ⟨C3_amended.1 "Succeeded" "SUCCEEDED" (by decide),
   (C3_amended.2.1 "READY").1⟩

/-- C7 counterexample: the render MCP poller does not treat a
server-error poll response as a retryable poll failure: a single 500
status response makes `_poll_until_complete` raise the HTTP error after
one call, failing the whole operation without ever reaching the
succeeded response scripted right behind it. -/
theorem C7_counterexample :
    RenderClient.poll_until_complete 5 300
      [{ status := 500, body := {} },
       { status := 200, body := { status := some "succeeded" } }] 0 0 =
      (.error (.httpError 500), 0, 1) := by
  rfl

/-- C7 amended: only the Runway monitoring loop absorbs poll failures:
a non-200 status response, or a request exception while attempts remain,
makes it continue looping with the attempt counter incremented (bounded
by its attempt budget).  The render MCP poller instead fails the whole
operation immediately with an HTTP error on any poll response whose
status is neither 200 nor 202. -/
theorem C7_amended :
    (∀ (resp : Nat → Runway.PollResp) (gid : String) (inp : Runway.RunInput)
        (attempt calls st : Nat) (b : Runway.StatusBody),
      attempt < Runway.maxAttempts → resp calls = .httpResp st b → st ≠ 200 →
      Runway.poll_loop resp gid inp attempt calls =
        Runway.poll_loop resp gid inp (attempt + 1) (calls + 1)) ∧
    (∀ (resp : Nat → Runway.PollResp) (gid : String) (inp : Runway.RunInput)
        (attempt calls : Nat) (msg : String),
      attempt + 1 < Runway.maxAttempts → resp calls = .exn msg →
      Runway.poll_loop resp gid inp attempt calls =
        Runway.poll_loop resp gid inp (attempt + 1) (calls + 1)) ∧
    (∀ (interval maxWait : Nat) (r : RenderClient.PollResp)
        (rest : List RenderClient.PollResp) (elapsed calls : Nat),
      ¬ elapsed > maxWait → r.status ≠ 200 → r.status ≠ 202 →
      RenderClient.poll_until_complete interval maxWait (r :: rest) elapsed calls =
        (.error (.httpError r.status), elapsed, calls + 1)) := by
  refine ⟨?_, ?_, ?_⟩
  · intro resp gid inp attempt calls st b hguard hr hst
    rw [Runway.poll_loop.eq_def, dif_pos hguard, hr]
    simp [hst]
  · intro resp gid inp attempt calls msg hlt hr
    rw [Runway.poll_loop.eq_def, dif_pos (Nat.lt_of_succ_lt hlt), hr]
    simp [Nat.not_le.mpr hlt]
  · intro interval maxWait r rest elapsed calls hgt h200 h202
    rw [RenderClient.poll_until_complete]
    simp [hgt, h200, h202]

/-- C7 amended witness: the three behaviors at concrete responses: a 503
poll response and a request exception keep the Runway loop going, while
a 404 poll response aborts the render poller after one call. -/
theorem C7_witness :
    Runway.poll_loop (fun _ => .httpResp 503 {}) "g" { prompt := "p" } 0 0 =
      Runway.poll_loop (fun _ => .httpResp 503 {}) "g" { prompt := "p" } 1 1 ∧
    Runway.poll_loop (fun _ => .exn "boom") "g" { prompt := "p" } 0 0 =
      Runway.poll_loop (fun _ => .exn "boom") "g" { prompt := "p" } 1 1 ∧
    RenderClient.poll_until_complete 5 300 [{ status := 404, body := {} }] 0 0 =
      (.error (.httpError 404), 0, 1) :=
  ⟨C7_amended.1 _ _ _ 0 0 503 {} (by decide) rfl (by decide),
   C7_amended.2.1 _ _ _ 0 0 "boom" (by decide) rfl,
   C7_amended.2.2 5 300 _ [] 0 0 (by decide) (by decide) (by decide)⟩

/-- Helper: every output the Runway monitoring loop can produce is
either a success carrying no error field, or a failure carrying a
non-empty error message. -/
theorem runway_poll_output_shape (resp : Nat → Runway.PollResp) (gid : String)
    (inp : Runway.RunInput) :
    ∀ fuel attempt calls, Runway.maxAttempts - attempt ≤ fuel →
      (((Runway.poll_loop resp gid inp attempt calls).1.success = true ∧
        (Runway.poll_loop resp gid inp attempt calls).1.error = none) ∨
       ((Runway.poll_loop resp gid inp attempt calls).1.success = false ∧
        ∃ m, (Runway.poll_loop resp gid inp attempt calls).1.error = some m ∧
          m ≠ "")) := by
  intro fuel
  induction fuel with
  | zero =>
    intro attempt calls hf
    have hguard : ¬ attempt < Runway.maxAttempts := by omega
    rw [Runway.poll_loop.eq_def, dif_neg hguard]
    right
    exact ⟨rfl, _, rfl, by decide⟩
  | succ n ih =>
    intro attempt calls hf
    by_cases hguard : attempt < Runway.maxAttempts
    · rw [Runway.poll_loop.eq_def, dif_pos hguard]
      cases hr : resp calls with
      | exn msg =>
        simp only []
        by_cases hx : attempt + 1 ≥ Runway.maxAttempts
        · rw [if_pos hx]
          right
          exact ⟨rfl, _, rfl, append_ne_empty_left _ _ (by decide)⟩
        · rw [if_neg hx]
          exact ih (attempt + 1) (calls + 1) (by omega)
      | httpResp st b =>
        simp only []
        rcases eq_or_ne st 200 with hst | hst
        · subst hst
          rw [if_neg (by decide : ¬ ((200 : Nat) ≠ 200))]
          cases hc : Runway.classify_status b.status with
          | succeeded => left; exact ⟨rfl, rfl⟩
          | failed =>
            right
            exact ⟨rfl, _, rfl, append_ne_empty_left _ _ (by decide)⟩
          | pendingRunning => exact ih (attempt + 1) (calls + 1) (by omega)
          | unknown => exact ih (attempt + 1) (calls + 1) (by omega)
        · rw [if_pos hst]
          exact ih (attempt + 1) (calls + 1) (by omega)
    · rw [Runway.poll_loop.eq_def, dif_neg hguard]
      right
      exact ⟨rfl, _, rfl, by decide⟩

/-- C8: for every scripted transport and every input, the Runway tool
returns a structured JSON output (modelled by `RunOutput`, always
produced, never an exception): either a success with no error field, or
a failure whose error field holds a non-empty human-readable message. -/
theorem C8_theorem (env : Runway.Env) (inp : Runway.RunInput) :
    ((Runway.run env inp).1.success = true ∧
      (Runway.run env inp).1.error = none) ∨
    ((Runway.run env inp).1.success = false ∧
      ∃ m, (Runway.run env inp).1.error = some m ∧ m ≠ "") := by
  unfold Runway.run
  split
  · right
    exact ⟨rfl, _, rfl, by decide⟩
  · split
    · right
      exact ⟨rfl, _, rfl, by decide⟩
    · split
      · right
        exact ⟨rfl, _, rfl, by decide⟩
      · split
        · right
          exact ⟨rfl, _, rfl, by decide⟩
        · split
          · right
            exact ⟨rfl, _, rfl, by decide⟩
          · right
            exact ⟨rfl, _, rfl, by decide⟩
          · right
            exact ⟨rfl, _, rfl, append_ne_empty_left _ _ (by decide)⟩
          · split
            · right
              exact ⟨rfl, _, rfl, by decide⟩
            · split
              · right
                exact ⟨rfl, _, rfl, by decide⟩
              · split
                · right
                  exact ⟨rfl, _, rfl, append_ne_empty_left _ _ (by decide)⟩
                · split
                  · right
                    exact ⟨rfl, _, rfl, by decide⟩
                  · exact runway_poll_output_shape _ _ _ 60 0 0 (by decide)
